import Mathlib

/-!
Verification development for a small banking ledger (accounts, deposits,
withdrawals, transfers, limits, interest, statements).

Shallow embedding notes:
- Monetary amounts and balances are modelled as rationals; the data model
  describes them as decimal / fixed-point amounts.
- The account store is an association list keyed by account id.  Python
  repositories hand out references to the stored objects, so an in-place
  mutation of a fetched account is visible through the store even before
  update_account is called; the embedding models every entity mutation as a
  write-through on the store (mapAccount), which reproduces that aliasing,
  including the case where source and destination of a transfer are the same
  account.
- Python functions that end without a return statement return None; services
  that test that value for truthiness are modelled with an explicit
  entityReturnValue constant.
- Transaction types appear in the source both as the TransactionType str-enum
  and as the lower-case strings the services write; both spell the
  same four kinds, modelled by one inductive type.
-/

namespace Bank

/-- The four transaction kinds of domain/entities/transaction_type.py.
The services spell them as the strings DEPOSIT / deposit, WITHDRAW /
withdrawal, transfer_in / TRANSFER_IN, transfer_out / TRANSFER_OUT. -/
inductive TransactionType
  | DEPOSIT
  | WITHDRAW
  | TRANSFER_IN
  | TRANSFER_OUT
deriving DecidableEq, Repr

/-- Account types of domain/entities: CHECKING and SAVINGS. -/
inductive AccountType
  | CHECKING
  | SAVINGS
deriving DecidableEq, Repr

/-- Account status; only ACTIVE is exercised by the code under scrutiny. -/
inductive AccountStatus
  | ACTIVE
deriving DecidableEq, Repr

/-- Transaction record (domain/entities/transaction.py): filed under
account_id, with a kind, a positive amount, and optional source and
destination account ids for transfer records.  The generated uuid and
timestamp play no role in the claims and are omitted. -/
structure Transaction where
  account_id : String
  transaction_type : TransactionType
  amount : ℚ
  source_account_id : Option String
  destination_account_id : Option String
deriving DecidableEq, Repr

/-- Account entity (domain/entities/account.py).  The accrued_interest field
is read and written by the interest / statement pipeline
(application/statement_service.py, application/interest_service.py); the
entity file under src lacks it, so it is modelled from the spec (section 4.5:
pending interest not yet capitalized, cleared to zero when applied). -/
structure Account where
  account_id : String
  owner_name : String
  account_type : AccountType
  status : AccountStatus
  balance : ℚ
  interest_rate : ℚ
  accrued_interest : ℚ
  transactions : List Transaction
deriving DecidableEq, Repr

/-- Account.deposit: rejects non-positive amounts, otherwise increases the
balance and appends a deposit transaction to the entity log. -/
def Account.deposit (a : Account) (amount : ℚ) : Except String Account :=
  if amount ≤ 0 then Except.error "Deposit amount must be positive"
  else Except.ok
    { a with
      balance := a.balance + amount
      transactions := a.transactions ++
        [{ account_id := a.account_id
           transaction_type := TransactionType.DEPOSIT
           amount := amount
           source_account_id := none
           destination_account_id := none }] }

/-- Account.withdraw: rejects non-positive amounts, then rejects amounts
exceeding the balance, otherwise decreases the balance and appends a
withdrawal transaction to the entity log. -/
def Account.withdraw (a : Account) (amount : ℚ) : Except String Account :=
  if amount ≤ 0 then Except.error "Withdrawal amount must be positive"
  else if a.balance < amount then Except.error "Insufficient balance"
  else Except.ok
    { a with
      balance := a.balance - amount
      transactions := a.transactions ++
        [{ account_id := a.account_id
           transaction_type := TransactionType.WITHDRAW
           amount := amount
           source_account_id := none
           destination_account_id := none }] }

/-- Python return value of Account.deposit and Account.withdraw: both methods
end without a return statement, so they return None. -/
def entityReturnValue : Option Bool := none

/-- Python truthiness of an Optional[bool]: None is falsy. -/
def pyTruthy : Option Bool → Bool
  | none => false
  | some b => b

/-- Lookup in the account store (dict account_id -> Account;
get_account_by_id). -/
def getAccount : List (String × Account) → String → Option Account
  | [], _ => none
  | p :: rest, account_id =>
      if p.1 = account_id then some p.2 else getAccount rest account_id

/-- Apply an update to the account stored under a given id, leaving other
entries alone.  This models both in-place mutation of a fetched account
(Python aliasing into the dict) and update_account, which replaces an
existing key. -/
def mapAccount (accounts : List (String × Account)) (account_id : String)
    (f : Account → Account) : List (String × Account) :=
  accounts.map (fun p => if p.1 = account_id then (p.1, f p.2) else p)

/-- update_account: store the given account object under an existing key. -/
def putAccount (accounts : List (String × Account)) (account_id : String)
    (a : Account) : List (String × Account) :=
  mapAccount accounts account_id (fun _ => a)

/-- The mutable state the application services act on: the account store and
the transaction repository (append-only log of saved transactions). -/
structure LedgerState where
  accounts : List (String × Account)
  txlog : List Transaction
deriving DecidableEq, Repr

theorem getAccount_mapAccount_self (accounts : List (String × Account))
    (account_id : String) (f : Account → Account) (acc : Account)
    (h : getAccount accounts account_id = some acc) :
    getAccount (mapAccount accounts account_id f) account_id = some (f acc) := by
  induction accounts with
  | nil => simp [getAccount] at h
  | cons p rest ih =>
      by_cases hp : p.1 = account_id
      · simp [getAccount, hp] at h
        simp [getAccount, mapAccount, hp, h]
      · simp [getAccount, hp] at h
        simpa [getAccount, mapAccount, hp] using ih h

theorem getAccount_mapAccount_other (accounts : List (String × Account))
    (account_id other_id : String) (f : Account → Account)
    (h : account_id ≠ other_id) :
    getAccount (mapAccount accounts account_id f) other_id =
      getAccount accounts other_id := by
  induction accounts with
  | nil => simp [getAccount, mapAccount]
  | cons p rest ih =>
      have h1 : ¬ account_id = other_id := h
      have h2 : ¬ other_id = account_id := fun hco => h hco.symm
      by_cases hp : p.1 = account_id
      · simp [getAccount, mapAccount, hp, h1, h2] at ih ⊢
        exact ih
      · by_cases hpo : p.1 = other_id
        · simp [getAccount, mapAccount, hp, hpo, h1, h2]
        · simp [getAccount, mapAccount, hp, hpo] at ih ⊢
          exact ih

/-- TransactionService.deposit (application/transaction_service.py).
Validates the amount, resolves the account, calls the entity deposit (whose
in-place mutation is visible through the store), then tests the entity call's
Python return value for success.  Account.deposit returns None, so the
success test fails and the service raises "Deposit failed" after the entity
state has already changed; the transaction-record branch is unreachable.
Returns the final state together with the Python result. -/
def TransactionService.deposit (st : LedgerState) (account_id : String)
    (amount : ℚ) : LedgerState × Except String Transaction :=
  if amount ≤ 0 then (st, Except.error "Deposit amount must be positive")
  else
    match getAccount st.accounts account_id with
    | none =>
        (st, Except.error ("Account with ID " ++ account_id ++ " not found"))
    | some account =>
        match account.deposit amount with
        | Except.error e => (st, Except.error e)
        | Except.ok account1 =>
            let st1 : LedgerState :=
              { st with accounts := putAccount st.accounts account_id account1 }
            if pyTruthy entityReturnValue then
              let tx : Transaction :=
                { account_id := account_id
                  transaction_type := TransactionType.DEPOSIT
                  amount := amount
                  source_account_id := none
                  destination_account_id := none }
              ({ st1 with txlog := st1.txlog ++ [tx] }, Except.ok tx)
            else (st1, Except.error "Deposit failed")

/-- TransactionService.withdraw (application/transaction_service.py).
Same structure as deposit: an entity-level exception (non-positive amount or
insufficient balance) propagates with the state untouched; on entity success
the None return value is treated as failure after the mutation. -/
def TransactionService.withdraw (st : LedgerState) (account_id : String)
    (amount : ℚ) : LedgerState × Except String Transaction :=
  if amount ≤ 0 then (st, Except.error "Withdrawal amount must be positive")
  else
    match getAccount st.accounts account_id with
    | none =>
        (st, Except.error ("Account with ID " ++ account_id ++ " not found"))
    | some account =>
        match account.withdraw amount with
        | Except.error e => (st, Except.error e)
        | Except.ok account1 =>
            let st1 : LedgerState :=
              { st with accounts := putAccount st.accounts account_id account1 }
            if pyTruthy entityReturnValue then
              let tx : Transaction :=
                { account_id := account_id
                  transaction_type := TransactionType.WITHDRAW
                  amount := amount
                  source_account_id := none
                  destination_account_id := none }
              ({ st1 with txlog := st1.txlog ++ [tx] }, Except.ok tx)
            else
              (st1, Except.error "Withdrawal failed - check balance and limits")

/-- FundTransferService.transfer_funds (application/fund_transfer_service.py).
Validates the amount, resolves both accounts, checks the source balance, then
debits the source and credits the destination through the store (so a
same-account transfer nets to zero), saves the two cross-referencing
transaction records to the transaction repository and returns them. -/
def FundTransferService.transfer_funds (st : LedgerState)
    (source_account_id destination_account_id : String) (amount : ℚ) :
    LedgerState × Except String (Transaction × Transaction) :=
  if amount ≤ 0 then (st, Except.error "Transfer amount must be positive")
  else
    match getAccount st.accounts source_account_id with
    | none =>
        (st, Except.error
          ("Source account " ++ source_account_id ++ " not found"))
    | some source_account =>
        match getAccount st.accounts destination_account_id with
        | none =>
            (st, Except.error
              ("Destination account " ++ destination_account_id ++ " not found"))
        | some _destination_account =>
            if source_account.balance < amount then
              (st, Except.error "Insufficient funds for transfer")
            else
              let accounts1 := mapAccount st.accounts source_account_id
                (fun a => { a with balance := a.balance - amount })
              let accounts2 := mapAccount accounts1 destination_account_id
                (fun a => { a with balance := a.balance + amount })
              let outgoing : Transaction :=
                { account_id := source_account_id
                  transaction_type := TransactionType.TRANSFER_OUT
                  amount := amount
                  source_account_id := some source_account_id
                  destination_account_id := some destination_account_id }
              let incoming : Transaction :=
                { account_id := destination_account_id
                  transaction_type := TransactionType.TRANSFER_IN
                  amount := amount
                  source_account_id := some source_account_id
                  destination_account_id := some destination_account_id }
              ({ accounts := accounts2
                 txlog := st.txlog ++ [outgoing, incoming] },
               Except.ok (outgoing, incoming))

/-- Account.transfer_to (domain/entities/account.py), a drifted variant the
application services never call: it rejects same-account transfers, then
moves the amount and records a transaction pair, and then repeats both the
balance moves and the record appends, so it debits the source twice and
leaves four records.  Embedded for completeness; the operative transfer path
is FundTransferService.transfer_funds. -/
def Account.transfer_to (a : Account) (target : Account) (amount : ℚ) :
    Except String (Account × Account) :=
  if amount ≤ 0 then Except.error "Transfer amount must be positive"
  else if a.balance < amount then
    Except.error "Insufficient balance for transfer"
  else if a.account_id = target.account_id then
    Except.error "Cannot transfer to the same account"
  else
    let out1 : Transaction :=
      { account_id := a.account_id
        transaction_type := TransactionType.TRANSFER_OUT
        amount := amount
        source_account_id := none
        destination_account_id := some target.account_id }
    let in1 : Transaction :=
      { account_id := target.account_id
        transaction_type := TransactionType.TRANSFER_IN
        amount := amount
        source_account_id := some a.account_id
        destination_account_id := none }
    let out2 : Transaction :=
      { account_id := a.account_id
        transaction_type := TransactionType.TRANSFER_OUT
        amount := amount
        source_account_id := none
        destination_account_id := none }
    let in2 : Transaction :=
      { account_id := target.account_id
        transaction_type := TransactionType.TRANSFER_IN
        amount := amount
        source_account_id := none
        destination_account_id := none }
    Except.ok
      ({ a with
         balance := a.balance - amount - amount
         transactions := a.transactions ++ [out1, out2] },
       { target with
         balance := target.balance + amount + amount
         transactions := target.transactions ++ [in1, in2] })

/-- Python str.upper for the ASCII type names: upper-cases every character.
Stated over the character list (String.toUpper maps Char.toUpper across the
string) so that it evaluates by kernel reduction. -/
def pyUpper (s : String) : String := String.mk (s.data.map Char.toUpper)

/-- AccountType(s.upper()): enum lookup by value after upper-casing, as in
AccountCreationService.create_account. -/
def parseAccountType (s : String) : Option AccountType :=
  if pyUpper s = "CHECKING" then some AccountType.CHECKING
  else if pyUpper s = "SAVINGS" then some AccountType.SAVINGS
  else none

/-- AccountCreationService.create_account
(application/account_creation_service.py).  Validates the account type, then
that the initial deposit is non-negative, then the 100-unit minimum for
savings accounts; on success stores a fresh account (id generation is passed
in as new_id in place of uuid4) with the type-based default interest rate and
returns the new id.  On any failure the store is unchanged. -/
def AccountCreationService.create_account (store : List (String × Account))
    (new_id : String) (account_type : String) (owner_name : String)
    (initial_deposit : ℚ) : List (String × Account) × Except String String :=
  match parseAccountType account_type with
  | none =>
      (store, Except.error ("Invalid account type: " ++ account_type))
  | some account_type_enum =>
      if initial_deposit < 0 then
        (store, Except.error "Initial deposit cannot be negative")
      else if account_type_enum = AccountType.SAVINGS ∧ initial_deposit < 100 then
        (store, Except.error
          "Savings accounts require a minimum initial deposit of $100")
      else
        let interest_rate : ℚ :=
          if account_type_enum = AccountType.SAVINGS then 2/100 else 5/1000
        let account : Account :=
          { account_id := new_id
            owner_name := owner_name
            account_type := account_type_enum
            status := AccountStatus.ACTIVE
            balance := initial_deposit
            interest_rate := interest_rate
            accrued_interest := 0
            transactions := [] }
        (store ++ [(new_id, account)], Except.ok new_id)

/-- Calendar date, standing in for datetime.date in the limit constraint. -/
structure SimpleDate where
  year : Nat
  month : Nat
  day : Nat
deriving DecidableEq, Repr

/-- The record shape DailyMonthlyLimit.validate_withdrawal reads from
account.transactions: it is duck-typed against records carrying a
transaction_type string, an amount and a date attribute (the entity
Transaction instead carries a timestamp; the constraint is written against
this dated shape). -/
structure DatedTx where
  transaction_type : String
  amount : ℚ
  date : SimpleDate
deriving DecidableEq, Repr

/-- Thresholds of domain/constraints/daily_monthly_limit.py (defaults 1000
daily, 10000 monthly). -/
structure DailyMonthlyLimit where
  daily_limit : ℚ
  monthly_limit : ℚ
deriving DecidableEq, Repr

/-- daily_total in validate_withdrawal: the sum of amounts of transactions
whose transaction_type is the string "withdraw" and whose date is today. -/
def dailyWithdrawalTotal (transactions : List DatedTx) (today : SimpleDate) : ℚ :=
  (transactions.map (fun t =>
    if t.transaction_type = "withdraw" ∧ t.date = today then t.amount else 0)).sum

/-- monthly_total in validate_withdrawal: the sum of amounts of transactions
whose transaction_type is "withdraw" in the current month and year. -/
def monthlyWithdrawalTotal (transactions : List DatedTx) (today : SimpleDate) : ℚ :=
  (transactions.map (fun t =>
    if t.transaction_type = "withdraw" ∧ t.date.month = today.month ∧
        t.date.year = today.year then t.amount else 0)).sum

/-- DailyMonthlyLimit.validate_withdrawal
(domain/constraints/daily_monthly_limit.py).  Computes the daily and monthly
withdrawal totals from the account's transactions and today's date, raises
for the daily limit first, then the monthly limit; it performs no writes, so
the transactions it read (and with them the usage totals) are returned
unchanged. -/
def DailyMonthlyLimit.validate_withdrawal (lim : DailyMonthlyLimit)
    (transactions : List DatedTx) (today : SimpleDate) (amount : ℚ) :
    Except String Unit × List DatedTx :=
  let daily_total := dailyWithdrawalTotal transactions today
  let monthly_total := monthlyWithdrawalTotal transactions today
  if lim.daily_limit < daily_total + amount then
    (Except.error "Daily withdrawal limit exceeded", transactions)
  else if lim.monthly_limit < monthly_total + amount then
    (Except.error "Monthly withdrawal limit exceeded", transactions)
  else (Except.ok (), transactions)

/-- TieredInterest.calculate_interest (domain/strategies/tiered_interest.py):
1 percent up to a balance of 1000, 2 percent on the excess above 1000. -/
def TieredInterest.calculate_interest (balance : ℚ) : ℚ :=
  if balance ≤ 1000 then balance * (1/100)
  else 1000 * (1/100) + (balance - 1000) * (2/100)

/-- FixedRateInterest.calculate_interest
(domain/strategies/fixed_rate_interest.py): balance times the fixed rate. -/
def FixedRateInterest.calculate_interest (rate : ℚ) (balance : ℚ) : ℚ :=
  balance * rate

/-- Modelled from the spec: Account.calculate_interest as invoked by
InterestService.calculate_interest with an as-of date is absent from the
entity file under src (the file only has a drifted module-level helper).
Spec section 4.5: it is a pure function of balance, rate, strategy and
elapsed time that updates accruedInterest but not balance; the amount
accrued for the period is abstracted here as the parameter accrual. -/
def Account.calculate_interest_accrue (a : Account) (accrual : ℚ) : Account :=
  { a with accrued_interest := a.accrued_interest + accrual }

/-- Modelled from the spec: Account.apply_accrued_interest is absent from the
entity file under src.  Spec section 4.5: it moves accruedInterest into
balance and resets accruedInterest to zero, returning the amount applied. -/
def Account.apply_accrued_interest (a : Account) : ℚ × Account :=
  (a.accrued_interest,
   { a with balance := a.balance + a.accrued_interest, accrued_interest := 0 })

/-- Monthly statement snapshot as constructed by
StatementService.generate_monthly_statement (ids and period dates omitted). -/
structure MonthlyStatement where
  account_id : String
  starting_balance : ℚ
  ending_balance : ℚ
  transactions : List Transaction
  interest_earned : ℚ
  fees_charged : ℚ
deriving DecidableEq, Repr

/-- total_deposits in generate_monthly_statement: amounts of the period's
deposit and transfer_in records. -/
def totalDeposits (transactions : List Transaction) : ℚ :=
  (transactions.map (fun tx =>
    if tx.transaction_type = TransactionType.DEPOSIT ∨
        tx.transaction_type = TransactionType.TRANSFER_IN then tx.amount
    else 0)).sum

/-- total_withdrawals in generate_monthly_statement: amounts of the period's
withdrawal and transfer_out records. -/
def totalWithdrawals (transactions : List Transaction) : ℚ :=
  (transactions.map (fun tx =>
    if tx.transaction_type = TransactionType.WITHDRAW ∨
        tx.transaction_type = TransactionType.TRANSFER_OUT then tx.amount
    else 0)).sum

/-- StatementService.generate_monthly_statement
(application/statement_service.py).  The date-range transaction query is
abstracted as the parameter period_txs, and the interest accrued for the
period by interest_service.calculate_interest as the parameter accrual
(spec-modelled, see Account.calculate_interest_accrue).  The service then
reads the accrued interest as interest_earned, applies it to the balance
through the interest service, reads the ending balance from the updated
account, and derives the starting balance by subtracting the net transaction
amount and the interest from the ending balance. -/
def StatementService.generate_monthly_statement (st : LedgerState)
    (account_id : String) (period_txs : List Transaction) (accrual : ℚ) :
    LedgerState × Except String MonthlyStatement :=
  match getAccount st.accounts account_id with
  | none => (st, Except.error ("Account " ++ account_id ++ " not found"))
  | some _account =>
      let accounts1 := mapAccount st.accounts account_id
        (fun a => a.calculate_interest_accrue accrual)
      match getAccount accounts1 account_id with
      | none => (st, Except.error ("Account " ++ account_id ++ " not found"))
      | some account1 =>
          let interest_earned := account1.accrued_interest
          let accounts2 := mapAccount accounts1 account_id
            (fun a => (a.apply_accrued_interest).2)
          match getAccount accounts2 account_id with
          | none => (st, Except.error ("Account " ++ account_id ++ " not found"))
          | some account2 =>
              let total_deposits := totalDeposits period_txs
              let total_withdrawals := totalWithdrawals period_txs
              let net_transaction_amount := total_deposits - total_withdrawals
              let ending_balance := account2.balance
              let starting_balance :=
                ending_balance - net_transaction_amount - interest_earned
              let statement : MonthlyStatement :=
                { account_id := account_id
                  starting_balance := starting_balance
                  ending_balance := ending_balance
                  transactions := period_txs
                  interest_earned := interest_earned
                  fees_charged := 0 }
              ({ st with accounts := accounts2 }, Except.ok statement)

/-- Claim C1: every transfer that completes successfully creates exactly two
transaction records — the transaction repository grows by exactly the
returned pair — one TRANSFER_OUT filed under the source account and one
TRANSFER_IN filed under the destination account, both carrying the
transferred amount and each referencing the other account's id. -/
theorem transfer_funds_creates_two_crossref_records
    (st : LedgerState) (sid did : String) (amount : ℚ) (src dst : Account)
    (hs : getAccount st.accounts sid = some src)
    (hd : getAccount st.accounts did = some dst)
    (hpos : 0 < amount) (hbal : amount ≤ src.balance) :
    ∃ outgoing incoming : Transaction,
      (FundTransferService.transfer_funds st sid did amount).2 =
        Except.ok (outgoing, incoming) ∧
      (FundTransferService.transfer_funds st sid did amount).1.txlog =
        st.txlog ++ [outgoing, incoming] ∧
      outgoing.account_id = sid ∧
      outgoing.transaction_type = TransactionType.TRANSFER_OUT ∧
      incoming.account_id = did ∧
      incoming.transaction_type = TransactionType.TRANSFER_IN ∧
      outgoing.amount = amount ∧ incoming.amount = amount ∧
      outgoing.destination_account_id = some did ∧
      incoming.source_account_id = some sid := by
  have h0 : ¬ amount ≤ 0 := not_le.mpr hpos
  have h1 : ¬ src.balance < amount := not_lt.mpr hbal
  refine ⟨⟨sid, TransactionType.TRANSFER_OUT, amount, some sid, some did⟩,
          ⟨did, TransactionType.TRANSFER_IN, amount, some sid, some did⟩,
          ?_, ?_, rfl, rfl, rfl, rfl, rfl, rfl, rfl, rfl⟩ <;>
    simp [FundTransferService.transfer_funds, hs, hd, h0, h1]

/-- Claim C2: a transfer between two distinct existing accounts conserves the
total of the two balances; the source balance decreases by exactly the
transferred amount and the destination balance increases by exactly it. -/
theorem transfer_funds_conserves_balances
    (st : LedgerState) (sid did : String) (amount : ℚ) (src dst : Account)
    (hs : getAccount st.accounts sid = some src)
    (hd : getAccount st.accounts did = some dst)
    (hpos : 0 < amount) (hbal : amount ≤ src.balance) (hne : sid ≠ did) :
    ∃ src1 dst1 : Account,
      getAccount (FundTransferService.transfer_funds st sid did amount).1.accounts
        sid = some src1 ∧
      getAccount (FundTransferService.transfer_funds st sid did amount).1.accounts
        did = some dst1 ∧
      src1.balance = src.balance - amount ∧
      dst1.balance = dst.balance + amount ∧
      src1.balance + dst1.balance = src.balance + dst.balance := by
  have h0 : ¬ amount ≤ 0 := not_le.mpr hpos
  have h1 : ¬ src.balance < amount := not_lt.mpr hbal
  have hstore : (FundTransferService.transfer_funds st sid did amount).1.accounts =
      mapAccount (mapAccount st.accounts sid
          (fun a => { a with balance := a.balance - amount })) did
        (fun a => { a with balance := a.balance + amount }) := by
    simp [FundTransferService.transfer_funds, hs, hd, h0, h1]
  have hsrc : getAccount (FundTransferService.transfer_funds st sid did amount).1.accounts
      sid = some { src with balance := src.balance - amount } := by
    rw [hstore,
      getAccount_mapAccount_other _ did sid
        (fun a => { a with balance := a.balance + amount }) (Ne.symm hne)]
    exact getAccount_mapAccount_self _ sid
      (fun a => { a with balance := a.balance - amount }) src hs
  have hinner : getAccount (mapAccount st.accounts sid
      (fun a => { a with balance := a.balance - amount })) did = some dst := by
    rw [getAccount_mapAccount_other _ sid did
      (fun a => { a with balance := a.balance - amount }) hne]
    exact hd
  have hdst : getAccount (FundTransferService.transfer_funds st sid did amount).1.accounts
      did = some { dst with balance := dst.balance + amount } := by
    rw [hstore]
    exact getAccount_mapAccount_self _ did
      (fun a => { a with balance := a.balance + amount }) dst hinner
  exact ⟨_, _, hsrc, hdst, rfl, rfl, by simp⟩

/-- Claim C3: a same-account transfer with 0 < amount ≤ balance is permitted
(the service succeeds), nets to no balance change (the debit and credit both
go through the one stored account), and still appends one TRANSFER_OUT and
one TRANSFER_IN record for that account to the transaction repository. -/
theorem transfer_funds_same_account
    (st : LedgerState) (aid : String) (amount : ℚ) (acc : Account)
    (ha : getAccount st.accounts aid = some acc)
    (hpos : 0 < amount) (hbal : amount ≤ acc.balance) :
    ∃ outgoing incoming : Transaction,
      (FundTransferService.transfer_funds st aid aid amount).2 =
        Except.ok (outgoing, incoming) ∧
      (∃ acc1 : Account,
        getAccount (FundTransferService.transfer_funds st aid aid amount).1.accounts
          aid = some acc1 ∧ acc1.balance = acc.balance) ∧
      (FundTransferService.transfer_funds st aid aid amount).1.txlog =
        st.txlog ++ [outgoing, incoming] ∧
      outgoing.account_id = aid ∧
      outgoing.transaction_type = TransactionType.TRANSFER_OUT ∧
      incoming.account_id = aid ∧
      incoming.transaction_type = TransactionType.TRANSFER_IN := by
  have h0 : ¬ amount ≤ 0 := not_le.mpr hpos
  have h1 : ¬ acc.balance < amount := not_lt.mpr hbal
  have hstore : (FundTransferService.transfer_funds st aid aid amount).1.accounts =
      mapAccount (mapAccount st.accounts aid
          (fun a => { a with balance := a.balance - amount })) aid
        (fun a => { a with balance := a.balance + amount }) := by
    simp [FundTransferService.transfer_funds, ha, h0, h1]
  have hmid : getAccount (mapAccount st.accounts aid
      (fun a => { a with balance := a.balance - amount })) aid =
      some { acc with balance := acc.balance - amount } :=
    getAccount_mapAccount_self _ aid
      (fun a => { a with balance := a.balance - amount }) acc ha
  have hfin : getAccount (FundTransferService.transfer_funds st aid aid amount).1.accounts
      aid = some { acc with balance := acc.balance - amount + amount } := by
    rw [hstore]
    exact getAccount_mapAccount_self _ aid
      (fun a => { a with balance := a.balance + amount }) _ hmid
  refine ⟨⟨aid, TransactionType.TRANSFER_OUT, amount, some aid, some aid⟩,
          ⟨aid, TransactionType.TRANSFER_IN, amount, some aid, some aid⟩,
          ?_, ⟨_, hfin, by simp⟩, ?_, rfl, rfl, rfl, rfl⟩ <;>
    simp [FundTransferService.transfer_funds, ha, h0, h1]

/-- Claim C5: a withdrawal of more than the balance is rejected by the entity
sufficient-funds check with "Insufficient balance", the exception propagates
through the service, and the whole ledger state (balances, transaction log,
and with them any usage counters) is returned exactly as it was. -/
theorem withdraw_insufficient_funds_no_mutation
    (st : LedgerState) (account_id : String) (amount : ℚ) (acc : Account)
    (ha : getAccount st.accounts account_id = some acc)
    (hpos : 0 < amount) (hover : acc.balance < amount) :
    TransactionService.withdraw st account_id amount =
      (st, Except.error "Insufficient balance") := by
  have h0 : ¬ amount ≤ 0 := not_le.mpr hpos
  simp [TransactionService.withdraw, ha, h0, Account.withdraw, hover]

/-- Claim C10: for every existing account and positive amount, the service
deposit raises "Deposit failed" — because Account.deposit returns None and
the service treats that as failure — but only after the entity has already
increased the stored balance by the amount and appended an entity-level
deposit transaction; no service transaction reaches the repository log. -/
theorem deposit_service_fails_after_mutation
    (st : LedgerState) (account_id : String) (amount : ℚ) (acc : Account)
    (ha : getAccount st.accounts account_id = some acc) (hpos : 0 < amount) :
    (TransactionService.deposit st account_id amount).2 =
      Except.error "Deposit failed" ∧
    getAccount (TransactionService.deposit st account_id amount).1.accounts
      account_id =
      some { acc with
             balance := acc.balance + amount
             transactions := acc.transactions ++
               [{ account_id := acc.account_id
                  transaction_type := TransactionType.DEPOSIT
                  amount := amount
                  source_account_id := none
                  destination_account_id := none }] } ∧
    (TransactionService.deposit st account_id amount).1.txlog = st.txlog := by
  have h0 : ¬ amount ≤ 0 := not_le.mpr hpos
  refine ⟨?_, ?_, ?_⟩
  · simp [TransactionService.deposit, ha, h0, Account.deposit, pyTruthy,
      entityReturnValue]
  · have hput := getAccount_mapAccount_self st.accounts account_id
      (fun _ => { acc with
        balance := acc.balance + amount
        transactions := acc.transactions ++
          [{ account_id := acc.account_id
             transaction_type := TransactionType.DEPOSIT
             amount := amount
             source_account_id := none
             destination_account_id := none }] }) acc ha
    simpa [TransactionService.deposit, ha, h0, Account.deposit, pyTruthy,
      entityReturnValue, putAccount] using hput
  · simp [TransactionService.deposit, ha, h0, Account.deposit, pyTruthy,
      entityReturnValue]

/-- Claim C6: the daily-limit gate of DailyMonthlyLimit.validate_withdrawal
fires exactly when the prior same-day withdrawal usage U plus the requested
amount A exceeds the configured daily limit L, and validation performs no
write: the transactions it computed the usage from come back unchanged. -/
theorem daily_limit_rejects_iff (lim : DailyMonthlyLimit)
    (transactions : List DatedTx) (today : SimpleDate) (amount : ℚ) :
    ((DailyMonthlyLimit.validate_withdrawal lim transactions today amount).1 =
        Except.error "Daily withdrawal limit exceeded" ↔
      lim.daily_limit < dailyWithdrawalTotal transactions today + amount) ∧
    (DailyMonthlyLimit.validate_withdrawal lim transactions today amount).2 =
      transactions := by
  by_cases hd : lim.daily_limit < dailyWithdrawalTotal transactions today + amount
  · simp [DailyMonthlyLimit.validate_withdrawal, hd]
  · by_cases hm : lim.monthly_limit <
        monthlyWithdrawalTotal transactions today + amount
    · simp [DailyMonthlyLimit.validate_withdrawal, hd, hm]
    · simp [DailyMonthlyLimit.validate_withdrawal, hd, hm]

/-- Claim C7: creating a SAVINGS account with a (non-negative) initial
deposit below 100 fails with the minimum-deposit error and leaves the store
unchanged; with at least 100 the minimum-deposit check does not reject and
the account is created. -/
theorem savings_minimum_initial_deposit (store : List (String × Account))
    (new_id owner_name : String) (d : ℚ) (h0 : 0 ≤ d) :
    (d < 100 →
      AccountCreationService.create_account store new_id "SAVINGS" owner_name d =
        (store,
         Except.error "Savings accounts require a minimum initial deposit of $100")) ∧
    (100 ≤ d →
      ∃ acct : Account,
        AccountCreationService.create_account store new_id "SAVINGS" owner_name d =
          (store ++ [(new_id, acct)], Except.ok new_id)) := by
  have hparse : parseAccountType "SAVINGS" = some AccountType.SAVINGS := by decide
  have hneg : ¬ d < 0 := not_lt.mpr h0
  constructor
  · intro hlt
    simp [AccountCreationService.create_account, hparse, hneg, hlt]
  · intro hge
    have hnlt : ¬ d < 100 := not_lt.mpr hge
    exact ⟨{ account_id := new_id, owner_name := owner_name,
             account_type := AccountType.SAVINGS, status := AccountStatus.ACTIVE,
             balance := d, interest_rate := 2/100, accrued_interest := 0,
             transactions := [] },
           by simp [AccountCreationService.create_account, hparse, hneg, hnlt]⟩

/-- Claim C8: the tiered strategy pays 1 percent of the balance up to the
1000 threshold and, above it, 1 percent of the threshold plus 2 percent of
the excess. -/
theorem tiered_interest_bands (b : ℚ) (h : 0 ≤ b) :
    (b ≤ 1000 → TieredInterest.calculate_interest b = b * (1/100)) ∧
    (1000 < b → TieredInterest.calculate_interest b =
      1000 * (1/100) + (b - 1000) * (2/100)) := by
  constructor
  · intro hb
    simp [TieredInterest.calculate_interest, hb]
  · intro hb
    simp [TieredInterest.calculate_interest, not_le.mpr hb]

/-- Claim C9: a generated monthly statement satisfies
starting = ending - (total deposits - total withdrawals) - interest earned,
where the interest for the period was accrued and applied to the balance
before the ending balance was read: the ending balance is the pre-statement
balance plus the full interest credited for the period, and that same
interest amount is the statement's interest_earned. -/
theorem statement_starting_balance_equation (st : LedgerState)
    (account_id : String) (period_txs : List Transaction) (accrual : ℚ)
    (acc : Account) (ha : getAccount st.accounts account_id = some acc) :
    ∃ stmt : MonthlyStatement,
      (StatementService.generate_monthly_statement st account_id period_txs
        accrual).2 = Except.ok stmt ∧
      stmt.starting_balance =
        stmt.ending_balance -
          (totalDeposits period_txs - totalWithdrawals period_txs) -
          stmt.interest_earned ∧
      stmt.interest_earned = acc.accrued_interest + accrual ∧
      stmt.ending_balance = acc.balance + (acc.accrued_interest + accrual) := by
  have h1 := getAccount_mapAccount_self st.accounts account_id
    (fun a => a.calculate_interest_accrue accrual) acc ha
  have h2 := getAccount_mapAccount_self
    (mapAccount st.accounts account_id
      (fun a => a.calculate_interest_accrue accrual))
    account_id (fun a => (a.apply_accrued_interest).2)
    (acc.calculate_interest_accrue accrual) h1
  simp only [Account.calculate_interest_accrue, Account.apply_accrued_interest]
    at h1 h2
  have hres : (StatementService.generate_monthly_statement st account_id
      period_txs accrual).2 =
      Except.ok
        { account_id := account_id
          starting_balance :=
            (acc.balance + (acc.accrued_interest + accrual)) -
              (totalDeposits period_txs - totalWithdrawals period_txs) -
              (acc.accrued_interest + accrual)
          ending_balance := acc.balance + (acc.accrued_interest + accrual)
          transactions := period_txs
          interest_earned := acc.accrued_interest + accrual
          fees_charged := 0 } := by
    simp [StatementService.generate_monthly_statement, ha, h1, h2,
      Account.calculate_interest_accrue, Account.apply_accrued_interest]
  exact ⟨_, hres, rfl, rfl, rfl⟩

/-- Checking account used as a concrete evaluation point. -/
def acctA : Account :=
  { account_id := "A"
    owner_name := "ann"
    account_type := AccountType.CHECKING
    status := AccountStatus.ACTIVE
    balance := 100
    interest_rate := 5/1000
    accrued_interest := 2
    transactions := [] }

/-- Savings account used as a concrete evaluation point. -/
def acctB : Account :=
  { account_id := "B"
    owner_name := "ben"
    account_type := AccountType.SAVINGS
    status := AccountStatus.ACTIVE
    balance := 20
    interest_rate := 2/100
    accrued_interest := 0
    transactions := [] }

/-- Ledger with the two concrete accounts and an empty transaction log. -/
def ledger0 : LedgerState :=
  { accounts := [("A", acctA), ("B", acctB)], txlog := [] }

/-- Claim C4 evaluated at its failing input: account A exists with balance
100 and the deposit amount 50 is positive, yet the service returns the error
"Deposit failed" instead of the created transaction the claim promises, and
the stored balance has already been raised to 150 with one entity
transaction appended (the repository log stays empty, so no transaction is
ever returned or saved). -/
theorem deposit_concrete_failing_input :
    (TransactionService.deposit ledger0 "A" 50).2 =
      Except.error "Deposit failed" ∧
    (getAccount (TransactionService.deposit ledger0 "A" 50).1.accounts "A").map
      Account.balance = some 150 ∧
    (getAccount (TransactionService.deposit ledger0 "A" 50).1.accounts "A").map
      (fun a => a.transactions.length) = some 1 ∧
    (TransactionService.deposit ledger0 "A" 50).1.txlog = [] := by
  refine ⟨?_, ?_, ?_, ?_⟩ <;>
    norm_num [TransactionService.deposit, ledger0, acctA, acctB, getAccount,
      putAccount, mapAccount, Account.deposit, pyTruthy, entityReturnValue]

/-- Witness: transferring 30 from A (balance 100) to B satisfies the
hypotheses of the C1 theorem and yields the two cross-referencing records. -/
theorem transfer_crossref_witness :
    getAccount ledger0.accounts "A" = some acctA ∧
    getAccount ledger0.accounts "B" = some acctB ∧
    (0:ℚ) < 30 ∧ (30:ℚ) ≤ acctA.balance ∧
    (∃ outgoing incoming : Transaction,
      (FundTransferService.transfer_funds ledger0 "A" "B" 30).2 =
        Except.ok (outgoing, incoming) ∧
      (FundTransferService.transfer_funds ledger0 "A" "B" 30).1.txlog =
        ledger0.txlog ++ [outgoing, incoming] ∧
      outgoing.account_id = "A" ∧
      outgoing.transaction_type = TransactionType.TRANSFER_OUT ∧
      incoming.account_id = "B" ∧
      incoming.transaction_type = TransactionType.TRANSFER_IN ∧
      outgoing.amount = 30 ∧ incoming.amount = 30 ∧
      outgoing.destination_account_id = some "B" ∧
      incoming.source_account_id = some "A") :=
  ⟨rfl, rfl, by norm_num, by norm_num [acctA],
   transfer_funds_creates_two_crossref_records ledger0 "A" "B" 30 acctA acctB
     rfl rfl (by norm_num) (by norm_num [acctA])⟩

/-- Witness: the 30-unit transfer from A to B moves the balances to 70 and 50
and conserves their sum, by the C2 theorem at that concrete input. -/
theorem transfer_conservation_witness :
    getAccount ledger0.accounts "A" = some acctA ∧
    getAccount ledger0.accounts "B" = some acctB ∧
    (0:ℚ) < 30 ∧ (30:ℚ) ≤ acctA.balance ∧ "A" ≠ "B" ∧
    (∃ src1 dst1 : Account,
      getAccount (FundTransferService.transfer_funds ledger0 "A" "B" 30).1.accounts
        "A" = some src1 ∧
      getAccount (FundTransferService.transfer_funds ledger0 "A" "B" 30).1.accounts
        "B" = some dst1 ∧
      src1.balance = acctA.balance - 30 ∧
      dst1.balance = acctB.balance + 30 ∧
      src1.balance + dst1.balance = acctA.balance + acctB.balance) :=
  ⟨rfl, rfl, by norm_num, by norm_num [acctA], by decide,
   transfer_funds_conserves_balances ledger0 "A" "B" 30 acctA acctB rfl rfl
     (by norm_num) (by norm_num [acctA]) (by decide)⟩

/-- Witness: a same-account transfer of 30 on A is accepted, leaves the
balance at 100, and still files a TRANSFER_OUT / TRANSFER_IN pair under A,
by the C3 theorem at that concrete input. -/
theorem transfer_same_account_witness :
    getAccount ledger0.accounts "A" = some acctA ∧
    (0:ℚ) < 30 ∧ (30:ℚ) ≤ acctA.balance ∧
    (∃ outgoing incoming : Transaction,
      (FundTransferService.transfer_funds ledger0 "A" "A" 30).2 =
        Except.ok (outgoing, incoming) ∧
      (∃ acc1 : Account,
        getAccount (FundTransferService.transfer_funds ledger0 "A" "A" 30).1.accounts
          "A" = some acc1 ∧ acc1.balance = acctA.balance) ∧
      (FundTransferService.transfer_funds ledger0 "A" "A" 30).1.txlog =
        ledger0.txlog ++ [outgoing, incoming] ∧
      outgoing.account_id = "A" ∧
      outgoing.transaction_type = TransactionType.TRANSFER_OUT ∧
      incoming.account_id = "A" ∧
      incoming.transaction_type = TransactionType.TRANSFER_IN) :=
  ⟨rfl, by norm_num, by norm_num [acctA],
   transfer_funds_same_account ledger0 "A" 30 acctA rfl (by norm_num)
     (by norm_num [acctA])⟩

/-- Witness: withdrawing 500 from A (balance 100) is rejected with
"Insufficient balance" and the state is returned untouched, by the C5
theorem at that concrete input. -/
theorem withdraw_insufficient_witness :
    getAccount ledger0.accounts "A" = some acctA ∧
    (0:ℚ) < 500 ∧ acctA.balance < 500 ∧
    TransactionService.withdraw ledger0 "A" 500 =
      (ledger0, Except.error "Insufficient balance") :=
  ⟨rfl, by norm_num, by norm_num [acctA],
   withdraw_insufficient_funds_no_mutation ledger0 "A" 500 acctA rfl
     (by norm_num) (by norm_num [acctA])⟩

/-- Witness: a savings creation with initial deposit 50 is rejected with the
minimum-deposit error and an empty store stays empty, by the C7 theorem at
that concrete input. -/
theorem savings_minimum_witness :
    (0:ℚ) ≤ 50 ∧
    (((50:ℚ) < 100 →
      AccountCreationService.create_account [] "S1" "SAVINGS" "oba" 50 =
        ([],
         Except.error "Savings accounts require a minimum initial deposit of $100")) ∧
     ((100:ℚ) ≤ 50 →
      ∃ acct : Account,
        AccountCreationService.create_account [] "S1" "SAVINGS" "oba" 50 =
          ([] ++ [("S1", acct)], Except.ok "S1"))) :=
  ⟨by norm_num, savings_minimum_initial_deposit [] "S1" "oba" 50 (by norm_num)⟩

/-- Witness: the tiered strategy at balance 1500, by the C8 theorem at that
concrete input. -/
theorem tiered_interest_witness :
    (0:ℚ) ≤ 1500 ∧
    (((1500:ℚ) ≤ 1000 →
      TieredInterest.calculate_interest 1500 = 1500 * (1/100)) ∧
     ((1000:ℚ) < 1500 →
      TieredInterest.calculate_interest 1500 =
        1000 * (1/100) + (1500 - 1000) * (2/100))) :=
  ⟨by norm_num, tiered_interest_bands 1500 (by norm_num)⟩

/-- Witness: a statement for A (balance 100, accrued 2) with period accrual 3
has interest 5, ending balance 105 and the required starting-balance
equation, by the C9 theorem at that concrete input. -/
theorem statement_witness :
    getAccount ledger0.accounts "A" = some acctA ∧
    (∃ stmt : MonthlyStatement,
      (StatementService.generate_monthly_statement ledger0 "A" [] 3).2 =
        Except.ok stmt ∧
      stmt.starting_balance =
        stmt.ending_balance - (totalDeposits [] - totalWithdrawals []) -
          stmt.interest_earned ∧
      stmt.interest_earned = acctA.accrued_interest + 3 ∧
      stmt.ending_balance = acctA.balance + (acctA.accrued_interest + 3)) :=
  ⟨rfl, statement_starting_balance_equation ledger0 "A" [] 3 acctA rfl⟩

/-- Witness: depositing 50 into B (balance 20) hits the "Deposit failed"
path after the stored balance became 70, by the C10 theorem at that concrete
input. -/
theorem deposit_fails_witness :
    getAccount ledger0.accounts "B" = some acctB ∧ (0:ℚ) < 50 ∧
    ((TransactionService.deposit ledger0 "B" 50).2 =
        Except.error "Deposit failed" ∧
      getAccount (TransactionService.deposit ledger0 "B" 50).1.accounts "B" =
        some { acctB with
               balance := acctB.balance + 50
               transactions := acctB.transactions ++
                 [{ account_id := acctB.account_id
                    transaction_type := TransactionType.DEPOSIT
                    amount := 50
                    source_account_id := none
                    destination_account_id := none }] } ∧
      (TransactionService.deposit ledger0 "B" 50).1.txlog = ledger0.txlog) :=
  ⟨rfl, by norm_num,
   deposit_service_fails_after_mutation ledger0 "B" 50 acctB rfl (by norm_num)⟩

end Bank
